import Mathlib

/-!
# Froggie Frame — verification of the device-facing API and the device cache

Shallow embedding of the repository's device-facing HTTP endpoints
(`src/web/app/api/device/frame/photos/route.ts`,
`src/web/app/api/device/sync/route.ts`, and the legacy
`/api/device/photos` handler embedded in
`src/web/app/(dashboard)/frames/[id]/page.tsx`), together with a model of
the Raspberry-Pi-side cache/sync component.  The Pi-side Python sources
(`pi-frame/froggie_frame/cache.py`, `sync.py`) are not part of this source
tree — only their documentation and install script are — so those
components are modelled from the specification text and marked as such.

Database rows are embedded as Lean structures; the Supabase query chains
used by the handlers become list filters over an explicit `DB` state.
Supabase's `.single()` (succeeds only when exactly one row matches) is
`singleRow`.  The SHA-256 `hashApiKey` helper and the storage signed-URL
generator are abstract function parameters: the handlers only compose them.
Timestamps are naturals (ISO-8601 strings compare chronologically, so the
string comparisons in the source are order-isomorphic to `Nat` comparison).
-/

namespace Froggie

/-- Row of the `frames` table; the columns read or written by the device
endpoints plus the config fields returned by the frame-config handler. -/
structure FrameRow where
  id : String
  user_id : String
  orientation : String
  shuffle : Bool
  is_online : Bool
  last_seen_at : Option Nat
  name : String
  brightness : Nat
  transition_effect : String
  slideshow_interval : Nat
  wake_time : Option String
  sleep_time : Option String
  device_token_hash : String
deriving Repr, DecidableEq

/-- Row of `frame_sources` (`stream_id` is nullable in the schema). -/
structure SourceRow where
  frame_id : String
  stream_id : Option String
  weight : Option Nat
  is_enabled : Bool
deriving Repr, DecidableEq

/-- Row of `frame_display_rules`. -/
structure RulesRow where
  frame_id : String
  prefer_matching_orientation : Bool
  min_quality_score : Nat
  freshness_weight : Nat
deriving Repr, DecidableEq

/-- Row of `photos`; the columns selected by the device endpoints.
`width`/`height` are nullable numeric columns, hence `Option Nat`. -/
structure PhotoRow where
  id : String
  stream_id : String
  storage_path : String
  filename : String
  mood : Option String
  mood_confidence : Option Nat
  ai_status : Option String
  width : Option Nat
  height : Option Nat
  created_at : Nat
  sort_order : Nat
deriving Repr, DecidableEq

/-- Row of `photo_tags`. -/
structure TagRow where
  photo_id : String
  tag : String
  category : String
  confidence : Option Nat
deriving Repr, DecidableEq

/-- Row of `api_keys` (legacy per-stream credentials). -/
structure ApiKeyRow where
  id : String
  key_hash : String
  stream_id : String
  expires_at : Option Nat
  last_used_at : Option Nat
deriving Repr, DecidableEq

/-- Row of `frame_playlists`; only the columns the config endpoint filters on. -/
structure PlaylistRow where
  id : String
  frame_id : String
  is_active : Bool
deriving Repr, DecidableEq

/-- The database state visible to the device endpoints. -/
structure DB where
  frames : List FrameRow
  frame_sources : List SourceRow
  frame_display_rules : List RulesRow
  photos : List PhotoRow
  photo_tags : List TagRow
  api_keys : List ApiKeyRow
  frame_playlists : List PlaylistRow
deriving Repr, DecidableEq

/-- Supabase `.single()`: the query's data is non-null exactly when the
filtered row set has exactly one element. -/
def singleRow {α : Type} : List α → Option α
  | [x] => some x
  | _ => none

/-- The `frames` update run by both authenticated device handlers:
`update({ is_online: true, last_seen_at: now }).eq('id', fid)`. -/
def markFrameSeen (frames : List FrameRow) (fid : String) (now : Nat) :
    List FrameRow :=
  frames.map fun r =>
    if r.id == fid then { r with is_online := true, last_seen_at := some now }
    else r

/-- Tag object as serialised into a photo's `tags` array. -/
structure TagOut where
  tag : String
  category : String
  confidence : Option Nat
deriving Repr, DecidableEq

/-- Photo object as serialised by the photo-list endpoints.  The frame-token
endpoint adds a `weight` field; the legacy endpoint does not (`none`). -/
structure PhotoOut where
  id : String
  storage_path : String
  filename : String
  download_url : String
  mood : Option String
  mood_confidence : Option Nat
  ai_status : Option String
  tags : List TagOut
  weight : Option Nat
deriving Repr, DecidableEq

/-- The `frame: { id, shuffle }` trailer of the frame-token photo list. -/
structure FrameInfo where
  id : String
  shuffle : Bool
deriving Repr, DecidableEq

/-- Response bodies the photo-list handlers can produce. -/
inductive DeviceResponse where
  | error (status : Nat) (message : String)
  | countOnly (count : Nat)
  | photoList (photos : List PhotoOut) (count : Nat) (frame : Option FrameInfo)
deriving Repr, DecidableEq

/-- Result of a photo-list handler: the response plus the database state
after the handler's writes. -/
structure HandlerOut where
  response : DeviceResponse
  db : DB
deriving Repr, DecidableEq

/-- Insert into a sorted list, used by `orderBy`. -/
def insertSorted {α : Type} (le : α → α → Bool) (x : α) : List α → List α
  | [] => [x]
  | y :: ys => if le x y then x :: y :: ys else y :: insertSorted le x ys

/-- Models the database's `ORDER BY` on a query result (insertion sort; the
claims under verification do not depend on which stable order the database
returns, only on the multiset of rows). -/
def orderBy {α : Type} (le : α → α → Bool) : List α → List α
  | [] => []
  | x :: xs => insertSorted le x (orderBy le xs)

/-- The fallback display rules the frame-token endpoint uses when no
`frame_display_rules` row exists (`rulesData || { ... }`). -/
def defaultRules (fid : String) : RulesRow :=
  { frame_id := fid, prefer_matching_orientation := true,
    min_quality_score := 0, freshness_weight := 50 }

/-- The orientation predicate of the frame-token endpoint:
`!p.width || !p.height` keeps the photo (JavaScript falsiness, so a `0`
dimension also counts as missing); otherwise the photo is kept iff
`(p.width > p.height) === isLandscapeFrame`. -/
def keepByOrientation (isLandscapeFrame : Bool) (p : PhotoRow) : Bool :=
  match p.width, p.height with
  | some w, some h =>
    if w == 0 || h == 0 then true
    else decide (h < w) == isLandscapeFrame
  | _, _ => true

/-- The orientation-filter block of the frame-token endpoint (route.ts
lines 85–97): filter only when `prefer_matching_orientation` is set and the
frame's orientation is not `'auto'`; fall back to the unfiltered list when
the filter leaves nothing. -/
def applyOrientationFilter (rules : RulesRow) (orientation : String)
    (photos : List PhotoRow) : List PhotoRow :=
  if rules.prefer_matching_orientation && orientation != "auto" then
    let isLandscapeFrame := orientation == "landscape"
    let filtered := photos.filter (keepByOrientation isLandscapeFrame)
    if filtered.isEmpty then photos else filtered
  else photos

/-- Models `new Map(sources.map(s => [s.stream_id, s.weight || 100]))` followed by
`.get(sid)`: a JavaScript `Map` built from entries keeps the last entry for
a duplicated key, and `s.weight || 100` turns a null or `0` weight into
`100`. -/
def lastWeightFor (sources : List SourceRow) (sid : String) : Option Nat :=
  (sources.filter (fun s => s.stream_id == some sid)).getLast?.map fun s =>
    match s.weight with
    | some w => if w == 0 then 100 else w
    | none => 100

/-- Models `streamWeights.get(p.stream_id) || 100`. -/
def photoWeight (sources : List SourceRow) (sid : String) : Nat :=
  match lastWeightFor sources sid with
  | some w => if w == 0 then 100 else w
  | none => 100

/-- Models `tagsByPhoto[photo.id] || []`: the tags fetched for the listed photos,
grouped per photo id (grouping preserves the fetched order). -/
def tagsFor (tags : List TagRow) (pid : String) : List TagOut :=
  (tags.filter (fun t => t.photo_id == pid)).map fun t =>
    { tag := t.tag, category := t.category, confidence := t.confidence }

/-- Handler for `GET /api/device/frame/photos` (src/web/app/api/device/frame/photos/
route.ts).  `hash` is `hashApiKey`, `sign path ttl` is
`storage.createSignedUrl(path, ttl)` (`none` when signing fails), `now` the
request time.  The request carries an optional `X-Device-Token` header and
the `count_only` query flag. -/
def framePhotosGET (hash : String → String) (sign : String → Nat → Option String)
    (now : Nat) (db : DB) (deviceToken : Option String) (countOnly : Bool) :
    HandlerOut :=
  match deviceToken with
  | none => ⟨.error 401 "Device token required", db⟩
  | some tok =>
    let tokenHash := hash tok
    match singleRow (db.frames.filter (fun f => f.device_token_hash == tokenHash)) with
    | none => ⟨.error 401 "Invalid device token", db⟩
    | some frame =>
      let db1 := { db with frames := markFrameSeen db.frames frame.id now }
      let sources := db1.frame_sources.filter fun s =>
        s.frame_id == frame.id && s.is_enabled && s.stream_id.isSome
      if sources.isEmpty then ⟨.photoList [] 0 none, db1⟩
      else
        let streamIds := sources.filterMap (fun s => s.stream_id)
        if countOnly then
          ⟨.countOnly (db1.photos.filter (fun p => streamIds.contains p.stream_id)).length, db1⟩
        else
          let rules := (singleRow (db1.frame_display_rules.filter
            (fun r => r.frame_id == frame.id))).getD (defaultRules frame.id)
          let photos := orderBy (fun a b => decide (b.created_at ≤ a.created_at))
            (db1.photos.filter (fun p => streamIds.contains p.stream_id))
          if photos.isEmpty then ⟨.photoList [] 0 none, db1⟩
          else
            let filteredPhotos := applyOrientationFilter rules frame.orientation photos
            let allTags := db1.photo_tags.filter fun t =>
              (filteredPhotos.map (fun p => p.id)).contains t.photo_id
            let photosWithUrls := filteredPhotos.map fun p =>
              { id := p.id, storage_path := p.storage_path, filename := p.filename,
                download_url := (sign p.storage_path 600).getD "",
                mood := p.mood, mood_confidence := p.mood_confidence,
                ai_status := p.ai_status, tags := tagsFor allTags p.id,
                weight := some (photoWeight sources p.stream_id) : PhotoOut }
            ⟨.photoList photosWithUrls photosWithUrls.length
              (some ⟨frame.id, frame.shuffle⟩), db1⟩

/-- Models `update({ last_used_at: now }).eq('id', kid)` on `api_keys`. -/
def markKeyUsed (keys : List ApiKeyRow) (kid : String) (now : Nat) :
    List ApiKeyRow :=
  keys.map fun k => if k.id == kid then { k with last_used_at := some now } else k

/-- The legacy endpoint's key lookup filter:
`.eq('key_hash', h).eq('stream_id', sid).or('expires_at.is.null,expires_at.gt.now')`
— an expiring key is accepted only while `expires_at` is strictly in the
future. -/
def legacyKeyMatch (keyHash streamId : String) (now : Nat) (k : ApiKeyRow) :
    Bool :=
  k.key_hash == keyHash && k.stream_id == streamId &&
    (match k.expires_at with
     | none => true
     | some t => decide (now < t))

/-- Legacy `GET /api/device/photos` (handler embedded in
src/web/app/(dashboard)/frames/[id]/page.tsx).  The request carries an
optional `X-API-Key` header, an optional `stream_id` query parameter, and
the `count_only` flag. -/
def legacyPhotosGET (hash : String → String) (sign : String → Nat → Option String)
    (now : Nat) (db : DB) (apiKey streamId : Option String) (countOnly : Bool) :
    HandlerOut :=
  match apiKey with
  | none => ⟨.error 401 "API key required", db⟩
  | some key =>
    match streamId with
    | none => ⟨.error 400 "Stream ID required", db⟩
    | some sid =>
      let keyHash := hash key
      match singleRow (db.api_keys.filter (legacyKeyMatch keyHash sid now)) with
      | none => ⟨.error 401 "Invalid API key", db⟩
      | some k =>
        let db1 := { db with api_keys := markKeyUsed db.api_keys k.id now }
        if countOnly then
          ⟨.countOnly (db1.photos.filter (fun p => p.stream_id == sid)).length, db1⟩
        else
          let photos := orderBy (fun a b => decide (a.sort_order ≤ b.sort_order))
            (db1.photos.filter (fun p => p.stream_id == sid))
          let allTags := db1.photo_tags.filter fun t =>
            (photos.map (fun p => p.id)).contains t.photo_id
          let photosWithUrls := photos.map fun p =>
            { id := p.id, storage_path := p.storage_path, filename := p.filename,
              download_url := (sign p.storage_path 3600).getD "",
              mood := p.mood, mood_confidence := p.mood_confidence,
              ai_status := p.ai_status, tags := tagsFor allTags p.id,
              weight := none : PhotoOut }
          ⟨.photoList photosWithUrls photosWithUrls.length none, db1⟩

/-- JSON body of `POST /api/device/sync`; every field is optional because
the handler destructures whatever the device sent. -/
structure SyncBody where
  stream_id : Option String
  synced_count : Option Int
  total_count : Option Int
  cache_size_mb : Option Int
deriving Repr, DecidableEq

/-- Response of the sync-report handler: `{ success: true }` carries no
further data. -/
inductive SyncResponse where
  | error (status : Nat) (message : String)
  | success
deriving Repr, DecidableEq

/-- Result of the sync-report handler; `reported` records whether the
handler reached its sync-status logging step. -/
structure SyncOut where
  response : SyncResponse
  db : DB
  reported : Bool
deriving Repr, DecidableEq

/-- The sync endpoint's key lookup filter:
`.eq('key_hash', h).eq('stream_id', body.stream_id)` — no `expires_at`
condition at all.  A body without `stream_id` serialises to a value no
stored row equals, so it matches nothing. -/
def syncKeyMatch (keyHash : String) (streamId : Option String) (k : ApiKeyRow) :
    Bool :=
  k.key_hash == keyHash && some k.stream_id == streamId

/-- Handler for `POST /api/device/sync` (src/web/app/api/device/sync/route.ts).  The
`synced_count` / `total_count` / `cache_size_mb` body fields are only
logged, never validated. -/
def syncPOST (hash : String → String) (now : Nat) (db : DB)
    (apiKey : Option String) (body : SyncBody) : SyncOut :=
  match apiKey with
  | none => ⟨.error 401 "API key required", db, false⟩
  | some key =>
    let keyHash := hash key
    match singleRow (db.api_keys.filter (syncKeyMatch keyHash body.stream_id)) with
    | none => ⟨.error 401 "Invalid API key", db, false⟩
    | some k =>
      let db1 := { db with api_keys := markKeyUsed db.api_keys k.id now }
      ⟨.success, db1, true⟩

/-- The `frame` object returned by the frame-config handler. -/
structure ConfigFrameOut where
  id : String
  name : String
  brightness : Nat
  orientation : String
  transition_effect : String
  slideshow_interval : Nat
  wake_time : Option String
  sleep_time : Option String
  shuffle : Bool
deriving Repr, DecidableEq

/-- Response of the frame-config handler.  The nested
`stream:photo_streams(*)` join on sources is returned opaquely by the
source; the model returns the source rows themselves. -/
inductive ConfigResponse where
  | error (status : Nat) (message : String)
  | config (frame : ConfigFrameOut) (sources : List SourceRow)
      (playlists : List PlaylistRow) (display_rules : Option RulesRow)
deriving Repr, DecidableEq

/-- Result of the frame-config handler. -/
structure ConfigOut where
  response : ConfigResponse
  db : DB
deriving Repr, DecidableEq

/-- Frame-config `GET` (second handler in src/web/app/api/device/sync/
route.ts, lines 65–141). -/
def frameConfigGET (hash : String → String) (now : Nat) (db : DB)
    (deviceToken : Option String) : ConfigOut :=
  match deviceToken with
  | none => ⟨.error 401 "Device token required", db⟩
  | some tok =>
    let tokenHash := hash tok
    match singleRow (db.frames.filter (fun f => f.device_token_hash == tokenHash)) with
    | none => ⟨.error 401 "Invalid device token", db⟩
    | some frame =>
      let db1 := { db with frames := markFrameSeen db.frames frame.id now }
      let sources := db1.frame_sources.filter fun s =>
        s.frame_id == frame.id && s.is_enabled
      let playlists := db1.frame_playlists.filter fun p =>
        p.frame_id == frame.id && p.is_active
      let rules := singleRow (db1.frame_display_rules.filter
        (fun r => r.frame_id == frame.id))
      ⟨.config
        { id := frame.id, name := frame.name, brightness := frame.brightness,
          orientation := frame.orientation,
          transition_effect := frame.transition_effect,
          slideshow_interval := frame.slideshow_interval,
          wake_time := frame.wake_time, sleep_time := frame.sleep_time,
          shuffle := frame.shuffle }
        sources playlists rules, db1⟩

/-!
## Device-side cache and sync (spec-modelled)

The Raspberry-Pi client sources (`pi-frame/froggie_frame/cache.py`,
`sync.py`, `display.py`) are referenced by the repository's documentation
and install script but are not present in this source tree, so the
CacheStore and SyncService components below are modelled from the
specification text (spec.md §3, §4.1, §4.3).  Remote photo identifiers are
opaque in the spec; they are modelled as naturals so the spec's
"evict lower id" tie-break is the numeric order.
-/

/-- Modelled from the spec: `CacheEntry` (spec.md §3) — one cached photo:
`id`, `sizeBytes`, `lastAccessedAt` (updated on every display read) and the
stream that references it.  The on-disk `localPath` and its bytes are
outside this sequential model (the spec couples them to the manifest via
the no-dangling-metadata invariant, which none of the verified claims
mention). -/
structure CacheEntry where
  id : Nat
  sizeBytes : Nat
  lastAccessedAt : Nat
  streamMembership : Nat
deriving Repr, DecidableEq

/-- Total size of a manifest: `sum(sizeBytes for all entries)`. -/
def totalSize (es : List CacheEntry) : Nat :=
  (es.map (fun e => e.sizeBytes)).sum

/-- The `manifest()` view — the set of ids currently cached. -/
def cacheManifest (es : List CacheEntry) : List Nat :=
  es.map (fun e => e.id)

/-- Modelled from the spec: `remove(id)` deletes the manifest entry;
idempotent (removing an absent id is a no-op). -/
def removeEntry (i : Nat) (es : List CacheEntry) : List CacheEntry :=
  es.filter (fun e => e.id != i)

/-- Eviction priority: `a` is evicted no later than `b` when its
`lastAccessedAt` is older, or equal with a lower-or-equal `id`
(spec.md §4.1: strict LRU by last-access time, tie-break on lower id). -/
def evictsBefore (a b : CacheEntry) : Bool :=
  decide (a.lastAccessedAt < b.lastAccessedAt ∨
    (a.lastAccessedAt = b.lastAccessedAt ∧ a.id ≤ b.id))

/-- Modelled from the spec: the entry `evictUntilUnderBudget` removes next —
the one with the oldest `lastAccessedAt`, lower id on ties. -/
def evictVictim : List CacheEntry → Option CacheEntry
  | [] => none
  | e :: es => some (es.foldl (fun acc x => if evictsBefore acc x then acc else x) e)

/-- One fuelled pass of the eviction loop, returning the remaining entries
together with the evicted entries in eviction order.  `evictUntilUnderBudget`
supplies `fuel = es.length`, which always suffices because every iteration
removes a present entry. -/
def evictLoop (target : Nat) : Nat → List CacheEntry → List CacheEntry × List CacheEntry
  | 0, es => (es, [])
  | fuel + 1, es =>
    if totalSize es ≤ target then (es, [])
    else
      match evictVictim es with
      | none => (es, [])
      | some v =>
        let rec_ := evictLoop target fuel (removeEntry v.id es)
        (rec_.1, v :: rec_.2)

/-- Modelled from the spec: `evictUntilUnderBudget(targetBytes)` —
repeatedly removes the entry with the oldest `lastAccessedAt` until
`totalSize() <= targetBytes` or the cache is empty (spec.md §4.1). -/
def evictUntilUnderBudget (target : Nat) (es : List CacheEntry) : List CacheEntry :=
  (evictLoop target es.length es).1

/-- The sequence of entries `evictUntilUnderBudget` removes, in order. -/
def evictionOrder (target : Nat) (es : List CacheEntry) : List CacheEntry :=
  (evictLoop target es.length es).2

/-- Modelled from the spec: `put(id, bytes, streamId)` — writes the bytes,
replaces any manifest entry for `id`, then runs eviction against the
configured budget (spec.md §4.1: eviction runs synchronously at the end of
every `put`; an over-budget photo is admitted transiently and may be the
first evicted). -/
def putEntry (maxBytes : Nat) (i sizeBytes streamId now : Nat)
    (es : List CacheEntry) : List CacheEntry :=
  evictUntilUnderBudget maxBytes
    (removeEntry i es ++ [⟨i, sizeBytes, now, streamId⟩])

/-- Modelled from the spec: the `lastAccessedAt` touch performed by
`get(id)` (spec.md §4.1 — the recency signal for LRU). -/
def touchEntry (i now : Nat) (es : List CacheEntry) : List CacheEntry :=
  es.map fun e => if e.id == i then { e with lastAccessedAt := now } else e

/-- A CacheStore mutation, for reasoning about operation sequences. -/
inductive CacheOp where
  | put (id sizeBytes streamId now : Nat)
  | remove (id : Nat)
  | get (id now : Nat)
deriving Repr, DecidableEq

/-- Apply one operation to the manifest. -/
def applyOp (maxBytes : Nat) (es : List CacheEntry) : CacheOp → List CacheEntry
  | .put i sz sid now => putEntry maxBytes i sz sid now es
  | .remove i => removeEntry i es
  | .get i now => touchEntry i now es

/-- Run a sequence of operations against an initially empty cache. -/
def runOps (maxBytes : Nat) (ops : List CacheOp) : List CacheEntry :=
  ops.foldl (applyOp maxBytes) []

/-- Modelled from the spec: `RemotePhotoRef` (spec.md §3). -/
structure RemoteRef where
  id : Nat
  downloadURL : String
  filename : String
deriving Repr, DecidableEq

/-- Outcome of one `reconcile()` run. -/
structure ReconcileResult where
  cache : List CacheEntry
  downloadedIds : List Nat
  prunedIds : List Nat
  reportSent : Bool
deriving Repr, DecidableEq

/-- Modelled from the spec: `SyncService.reconcile()` (spec.md §4.3;
`pi-frame/froggie_frame/sync.py` is not in this source tree).
`listResult` is the outcome of `RemoteCatalogClient.listPhotos` (`none` on
total failure), `fetchBytes url` the size of a fetched photo (`none` when
that one download fails and is skipped), `reportOk` whether the best-effort
status report went through.  On list failure the service logs and returns —
the cache is untouched. -/
def reconcile (maxBytes streamId now : Nat)
    (listResult : Option (List RemoteRef))
    (fetchBytes : String → Option Nat) (reportOk : Bool)
    (es : List CacheEntry) : ReconcileResult :=
  match listResult with
  | none => { cache := es, downloadedIds := [], prunedIds := [], reportSent := false }
  | some refs =>
    let remoteIds := refs.map (fun r => r.id)
    let toDownload := refs.filter (fun r => !(cacheManifest es).contains r.id)
    let toPrune := (cacheManifest es).filter (fun i => !remoteIds.contains i)
    let afterDownloads := toDownload.foldl
      (fun acc r =>
        match fetchBytes r.downloadURL with
        | none => acc
        | some sz => putEntry maxBytes r.id sz streamId now acc)
      es
    let afterPrunes := toPrune.foldl (fun acc i => removeEntry i acc) afterDownloads
    { cache := afterPrunes
      downloadedIds := (toDownload.filter (fun r => (fetchBytes r.downloadURL).isSome)).map (fun r => r.id)
      prunedIds := toPrune
      reportSent := reportOk }

/-! ## Supporting lemmas for the cache model -/

theorem totalSize_filter_le (p : CacheEntry → Bool) (es : List CacheEntry) :
    totalSize (es.filter p) ≤ totalSize es := by
  induction es with
  | nil => simp [totalSize]
  | cons e es ih =>
    by_cases h : p e <;> simp [totalSize, List.filter_cons, h] at * <;> omega

theorem totalSize_map_preserve (f : CacheEntry → CacheEntry)
    (hf : ∀ e, (f e).sizeBytes = e.sizeBytes) (es : List CacheEntry) :
    totalSize (es.map f) = totalSize es := by
  induction es with
  | nil => rfl
  | cons e es ih =>
    simp only [List.map_cons, totalSize, List.sum_cons] at *
    rw [hf e, ih]

theorem totalSize_touch (i now : Nat) (es : List CacheEntry) :
    totalSize (touchEntry i now es) = totalSize es :=
  totalSize_map_preserve _ (fun e => by by_cases h : (e.id == i) = true <;> simp [h]) es

theorem foldl_victim_mem (es : List CacheEntry) (e : CacheEntry) :
    es.foldl (fun acc x => if evictsBefore acc x then acc else x) e ∈ e :: es := by
  induction es generalizing e with
  | nil => simp
  | cons x xs ih =>
    simp only [List.foldl_cons, List.mem_cons] at *
    by_cases h : evictsBefore e x = true
    · rw [if_pos h]
      rcases ih e with h' | h'
      · exact Or.inl h'
      · exact Or.inr (Or.inr h')
    · rw [if_neg h]
      rcases ih x with h' | h'
      · exact Or.inr (Or.inl h')
      · exact Or.inr (Or.inr h')

theorem evictVictim_mem {es : List CacheEntry} {v : CacheEntry}
    (h : evictVictim es = some v) : v ∈ es := by
  cases es with
  | nil => simp [evictVictim] at h
  | cons e es =>
    simp only [evictVictim, Option.some.injEq] at h
    have := foldl_victim_mem es e
    rw [h] at this
    exact this

theorem evictsBefore_total (a b : CacheEntry) :
    evictsBefore a b = true ∨ evictsBefore b a = true := by
  simp only [evictsBefore, decide_eq_true_eq]
  omega

theorem evictsBefore_trans {a b c : CacheEntry}
    (hab : evictsBefore a b = true) (hbc : evictsBefore b c = true) :
    evictsBefore a c = true := by
  simp only [evictsBefore, decide_eq_true_eq] at *
  omega

theorem foldl_victim_min (es : List CacheEntry) (e : CacheEntry) :
    evictsBefore
      (es.foldl (fun acc x => if evictsBefore acc x then acc else x) e) e = true ∧
    ∀ x ∈ es,
      evictsBefore
        (es.foldl (fun acc x => if evictsBefore acc x then acc else x) e) x = true := by
  induction es generalizing e with
  | nil =>
    refine ⟨?_, by simp⟩
    simp [evictsBefore]
  | cons x xs ih =>
    simp only [List.foldl_cons]
    by_cases h : evictsBefore e x = true
    · obtain ⟨h1, h2⟩ := ih e
      refine ⟨by simpa [h] using h1, ?_⟩
      intro y hy
      rcases hy with _ | hy
      · exact evictsBefore_trans (by simpa [h] using h1) h
      · simpa [h] using h2 y (by assumption)
    · obtain ⟨h1, h2⟩ := ih x
      have hx : evictsBefore x e = true := by
        rcases evictsBefore_total e x with h' | h'
        · exact absurd h' h
        · exact h'
      refine ⟨?_, ?_⟩
      · exact evictsBefore_trans (by simpa [h] using h1) hx
      · intro y hy
        rcases hy with _ | hy
        · simpa [h] using h1
        · simpa [h] using h2 y (by assumption)

theorem evictVictim_min {es : List CacheEntry} {v : CacheEntry}
    (h : evictVictim es = some v) : ∀ e ∈ es, evictsBefore v e = true := by
  cases es with
  | nil => simp [evictVictim] at h
  | cons e es =>
    simp only [evictVictim, Option.some.injEq] at h
    obtain ⟨h1, h2⟩ := foldl_victim_min es e
    rw [h] at h1 h2
    intro y hy
    rcases List.mem_cons.mp hy with rfl | hy
    · exact h1
    · exact h2 y hy

theorem evictVictim_isSome {es : List CacheEntry} (h : es ≠ []) :
    (evictVictim es).isSome := by
  cases es with
  | nil => exact absurd rfl h
  | cons e es => simp [evictVictim]

theorem length_filter_lt_of_mem {α : Type} (p : α → Bool) {l : List α} {x : α}
    (hx : x ∈ l) (hpx : p x = false) :
    (l.filter p).length < l.length := by
  induction l with
  | nil => simp at hx
  | cons y ys ih =>
    rcases hx with _ | hx
    · have := List.length_filter_le p ys
      simp [List.filter_cons, hpx]
      omega
    · by_cases h : p y = true <;> simp [List.filter_cons, h] <;>
        [skip; have := List.length_filter_le p ys] <;>
        have := ih (by assumption) <;> omega

theorem removeEntry_length_lt {es : List CacheEntry} {v : CacheEntry}
    (hv : v ∈ es) : (removeEntry v.id es).length < es.length := by
  apply length_filter_lt_of_mem _ hv
  simp

/-- The remaining entries after the fuelled eviction loop are under the
target, or nothing remains — provided the fuel covers the entry count. -/
theorem evictLoop_under_or_empty (target : Nat) :
    ∀ (fuel : Nat) (es : List CacheEntry), es.length ≤ fuel →
      totalSize (evictLoop target fuel es).1 ≤ target ∨
        (evictLoop target fuel es).1 = [] := by
  intro fuel
  induction fuel with
  | zero =>
    intro es hlen
    right
    simpa [evictLoop] using List.length_eq_zero.mp (Nat.le_zero.mp hlen)
  | succ fuel ih =>
    intro es hlen
    by_cases hsz : totalSize es ≤ target
    · left; simp [evictLoop, hsz]
    · rcases hes : evictVictim es with _ | v
      · cases es with
        | nil => simp [evictLoop, totalSize] at hsz
        | cons e es' => simp [evictVictim] at hes
      · have hlt := removeEntry_length_lt (evictVictim_mem hes)
        have := ih (removeEntry v.id es) (by omega)
        simpa [evictLoop, hsz, hes] using this

theorem evictUntilUnderBudget_le (target : Nat) (es : List CacheEntry) :
    totalSize (evictUntilUnderBudget target es) ≤ target := by
  rcases evictLoop_under_or_empty target es.length es (Nat.le_refl _) with h | h
  · exact h
  · simp [evictUntilUnderBudget, h, totalSize]

theorem applyOp_preserves (maxBytes : Nat) (es : List CacheEntry) (op : CacheOp)
    (h : totalSize es ≤ maxBytes) :
    totalSize (applyOp maxBytes es op) ≤ maxBytes := by
  cases op with
  | put i sz sid now => exact evictUntilUnderBudget_le maxBytes _
  | remove i => exact le_trans (totalSize_filter_le _ _) h
  | get i now =>
    show totalSize (touchEntry i now es) ≤ maxBytes
    rw [totalSize_touch]
    exact h

theorem runOps_invariant (maxBytes : Nat) (ops : List CacheOp) :
    ∀ es, totalSize es ≤ maxBytes →
      totalSize (ops.foldl (applyOp maxBytes) es) ≤ maxBytes := by
  induction ops with
  | nil => intro es h; exact h
  | cons op ops ih => intro es h; exact ih _ (applyOp_preserves maxBytes es op h)

/-- The strict LRU eviction order: older last access first, lower id on
equal timestamps. -/
def evictsStrictlyBefore (a b : CacheEntry) : Prop :=
  a.lastAccessedAt < b.lastAccessedAt ∨
    (a.lastAccessedAt = b.lastAccessedAt ∧ a.id < b.id)

instance : DecidableRel evictsStrictlyBefore := fun a b => by
  unfold evictsStrictlyBefore
  infer_instance

theorem evictLoop_trace_subset (target : Nat) :
    ∀ (fuel : Nat) (es : List CacheEntry) (e : CacheEntry),
      e ∈ (evictLoop target fuel es).2 → e ∈ es := by
  intro fuel
  induction fuel with
  | zero => intro es e he; simp [evictLoop] at he
  | succ fuel ih =>
    intro es e he
    by_cases hsz : totalSize es ≤ target
    · simp [evictLoop, hsz] at he
    · rcases hes : evictVictim es with _ | v
      · simp [evictLoop, hsz, hes] at he
      · simp only [evictLoop, hsz, hes, if_neg, List.mem_cons] at he
        cases he with
        | head => exact evictVictim_mem hes
        | tail b hmem =>
          exact List.mem_of_mem_filter (ih _ e (by simpa using hmem))

theorem evictLoop_trace_sorted (target : Nat) :
    ∀ (fuel : Nat) (es : List CacheEntry),
      (es.map (fun e => e.id)).Nodup →
      (evictLoop target fuel es).2.Pairwise evictsStrictlyBefore := by
  intro fuel
  induction fuel with
  | zero => intro es _; simp [evictLoop]
  | succ fuel ih =>
    intro es hnd
    by_cases hsz : totalSize es ≤ target
    · simp [evictLoop, hsz]
    · rcases hes : evictVictim es with _ | v
      · simp [evictLoop, hsz, hes]
      · have hnd' : ((removeEntry v.id es).map (fun e => e.id)).Nodup :=
          hnd.sublist (List.Sublist.map _ (List.filter_sublist _))
        have hrest := ih (removeEntry v.id es) hnd'
        simp only [evictLoop, hsz, hes, if_neg]
        refine List.Pairwise.cons ?_ hrest
        intro e he
        have heInRest : e ∈ removeEntry v.id es :=
          evictLoop_trace_subset target fuel _ e he
        have heEs : e ∈ es := List.mem_of_mem_filter heInRest
        have hid : ¬ e.id = v.id := by
          have := List.of_mem_filter heInRest
          simpa using this
        have hbefore := evictVictim_min hes e heEs
        simp only [evictsBefore, decide_eq_true_eq] at hbefore
        unfold evictsStrictlyBefore
        omega

/-- Claim C1 (spec-modelled — the Pi-side `cache.py` is absent from this
tree): for every sequence of CacheStore `put`/`remove`/`get` operations run
from an empty cache, the total size of all cached entries is at most
`maxCacheSizeBytes` at the moment each operation returns.  The sequence
`ops` is universally quantified, so the bound holds after every prefix of
any operation sequence; eviction runs synchronously inside `put`, so the
budget can be exceeded only transiently inside `putEntry`, never in the
state `runOps` exposes. -/
theorem cache_size_invariant (maxBytes : Nat) (ops : List CacheOp) :
    totalSize (runOps maxBytes ops) ≤ maxBytes :=
  runOps_invariant maxBytes ops [] (by simp [totalSize])

/-- Claim C5 (spec-modelled — the Pi-side `cache.py` is absent from this
tree): on a cache whose entry ids are distinct, `evictUntilUnderBudget`
removes entries one at a time in strictly increasing `(lastAccessedAt, id)`
order — oldest last-access first, lower id on equal timestamps — leaves the
remaining entries at or under `targetBytes` (or the cache empty, whose
total size is zero), and evicts nothing at all when the cache is already
within budget. -/
theorem evict_order_lru (target : Nat) (es : List CacheEntry)
    (hnd : (es.map (fun e => e.id)).Nodup) :
    (evictionOrder target es).Pairwise evictsStrictlyBefore ∧
    totalSize (evictUntilUnderBudget target es) ≤ target ∧
    (totalSize es ≤ target → evictionOrder target es = []) := by
  refine ⟨evictLoop_trace_sorted target es.length es hnd,
    evictUntilUnderBudget_le target es, ?_⟩
  intro h
  cases hl : es.length with
  | zero => simp [evictionOrder, hl, evictLoop]
  | succ n => simp [evictionOrder, hl, evictLoop, h]

/-- Concrete run of `evict_order_lru`: three 3-byte entries against a
5-byte target; the two entries last accessed at time 10 go first, id 1
before id 2. -/
theorem evict_order_lru_witness :
    (([⟨1, 3, 10, 0⟩, ⟨2, 3, 10, 0⟩, ⟨3, 3, 20, 0⟩] : List CacheEntry).map
        (fun e => e.id)).Nodup ∧
    ((evictionOrder 5 [⟨1, 3, 10, 0⟩, ⟨2, 3, 10, 0⟩, ⟨3, 3, 20, 0⟩]).Pairwise
        evictsStrictlyBefore ∧
      totalSize (evictUntilUnderBudget 5 [⟨1, 3, 10, 0⟩, ⟨2, 3, 10, 0⟩, ⟨3, 3, 20, 0⟩]) ≤ 5 ∧
      (totalSize ([⟨1, 3, 10, 0⟩, ⟨2, 3, 10, 0⟩, ⟨3, 3, 20, 0⟩] : List CacheEntry) ≤ 5 →
        evictionOrder 5 [⟨1, 3, 10, 0⟩, ⟨2, 3, 10, 0⟩, ⟨3, 3, 20, 0⟩] = [])) :=
  ⟨by decide, evict_order_lru 5 _ (by decide)⟩

/-- Claim C6 (spec-modelled — the Pi-side `sync.py` is absent from this
tree): when `listPhotos` fails entirely, `reconcile()` returns normally (it
is a total function of the failure outcome) with the cache manifest exactly
as it was: no entry added, removed or modified, nothing downloaded, nothing
pruned. -/
theorem reconcile_offline_unchanged (maxBytes streamId now : Nat)
    (fetchBytes : String → Option Nat) (reportOk : Bool)
    (es : List CacheEntry) :
    (reconcile maxBytes streamId now none fetchBytes reportOk es).cache = es ∧
    cacheManifest (reconcile maxBytes streamId now none fetchBytes reportOk es).cache
      = cacheManifest es ∧
    (reconcile maxBytes streamId now none fetchBytes reportOk es).downloadedIds = [] ∧
    (reconcile maxBytes streamId now none fetchBytes reportOk es).prunedIds = [] :=
  ⟨rfl, rfl, rfl, rfl⟩

/-! ## Concrete rows for counterexamples and witnesses -/

/-- A frame whose stored `device_token_hash` is the hash of `"tok-1"` under
the identity hash used in the concrete scenarios. -/
def frameA : FrameRow :=
  { id := "frame-1", user_id := "user-1", orientation := "landscape",
    shuffle := false, is_online := false, last_seen_at := none,
    name := "Living Room", brightness := 80, transition_effect := "fade",
    slideshow_interval := 10, wake_time := none, sleep_time := none,
    device_token_hash := "tok-1" }

/-- An enabled source linking `frameA` to stream `stream-1`. -/
def sourceA : SourceRow :=
  { frame_id := "frame-1", stream_id := some "stream-1", weight := some 100,
    is_enabled := true }

/-- A landscape photo in `stream-1`. -/
def photoA : PhotoRow :=
  { id := "photo-1", stream_id := "stream-1", storage_path := "u1/p1.jpg",
    filename := "p1.jpg", mood := none, mood_confidence := none,
    ai_status := none, width := some 400, height := some 300,
    created_at := 1, sort_order := 1 }

/-- A non-expiring API key for `stream-1` whose stored hash is the hash of
`"key-1"` under the identity hash. -/
def keyA : ApiKeyRow :=
  { id := "ak-1", key_hash := "key-1", stream_id := "stream-1",
    expires_at := none, last_used_at := none }

/-- The database the concrete scenarios run against. -/
def dbA : DB :=
  { frames := [frameA], frame_sources := [sourceA], frame_display_rules := [],
    photos := [photoA], photo_tags := [], api_keys := [keyA],
    frame_playlists := [] }

/-! ## C2 — photo-list response shape -/

/-- A photo-list response is an error, or a `photos` array together with a
`count` equal to the array's length. -/
def listShapeOK (r : DeviceResponse) : Prop :=
  (∃ s m, r = .error s m) ∨ ∃ ps fr, r = .photoList ps ps.length fr

/-- Claim C2 counterexample: a successfully authenticated request to the
frame photo-list endpoint with `count_only=true` — the first conjunct shows
the device token resolves to `frameA`, yet the response is `{ count: 1 }`
with no `photos` array at all, so it is not a JSON object of the claimed
`{ photos, count }` shape. -/
theorem count_only_response_has_no_photos_array :
    singleRow (dbA.frames.filter
        (fun f => f.device_token_hash == (fun s => s) "tok-1")) = some frameA ∧
    (framePhotosGET (fun s => s) (fun _ _ => none) 7 dbA (some "tok-1")
        true).response = .countOnly 1 := by
  constructor <;> decide

/-- Claim C2 (amended): for every request to the frame-token or legacy device
photo-list endpoint with `count_only` not set, the response is either an
error or a photo list whose `count` field equals the number of elements of
its `photos` array (each element carries `id`, `download_url`, `filename`,
`mood` and `tags` by construction of `PhotoOut`). -/
theorem photo_list_count_matches (hash : String → String)
    (sign : String → Nat → Option String) (now : Nat) (db : DB)
    (deviceToken apiKey streamId : Option String) :
    listShapeOK (framePhotosGET hash sign now db deviceToken false).response ∧
    listShapeOK (legacyPhotosGET hash sign now db apiKey streamId false).response := by
  constructor
  · simp only [framePhotosGET, listShapeOK]
    repeat' split
    all_goals first
      | exact Or.inl ⟨_, _, rfl⟩
      | exact Or.inr ⟨_, _, rfl⟩
      | (rename_i hfalse; exact absurd hfalse (by decide))
  · simp only [legacyPhotosGET, listShapeOK]
    repeat' split
    all_goals first
      | exact Or.inl ⟨_, _, rfl⟩
      | exact Or.inr ⟨_, _, rfl⟩
      | (rename_i hfalse; exact absurd hfalse (by decide))

/-! ## C3 — authentication failures -/

/-- Claim C3 counterexample: a request to the legacy device photo-list
endpoint carrying a credential whose hash matches no stored API key (first
conjunct) but no `stream_id` parameter is answered with HTTP 400, not 401 —
the missing-parameter check runs before the key lookup. -/
theorem unmatched_key_can_get_400 :
    dbA.api_keys.filter (fun k => k.key_hash == (fun s : String => s) "bogus") = [] ∧
    legacyPhotosGET (fun s => s) (fun _ _ => none) 7 dbA (some "bogus") none false
      = ⟨.error 400 "Stream ID required", dbA⟩ := by
  constructor <;> decide

/-- Claim C3 (amended): a device request carrying no credential, or a
credential whose hash matches no stored API key or device token, is
rejected with HTTP 401 — except that the legacy photo-list endpoint
answers 400 when the `stream_id` parameter is absent (that check precedes
the key lookup) — and in every such case the database is returned
untouched, no photo list is produced, and no sync status is recorded. -/
theorem auth_failure_rejected_without_effect (hash : String → String)
    (sign : String → Nat → Option String) (now : Nat) (db : DB)
    (tok key sid : String) (co : Bool) (body : SyncBody)
    (hTok : singleRow (db.frames.filter
        (fun f => f.device_token_hash == hash tok)) = none)
    (hSync : singleRow (db.api_keys.filter
        (syncKeyMatch (hash key) body.stream_id)) = none)
    (hLegacy : singleRow (db.api_keys.filter
        (legacyKeyMatch (hash key) sid now)) = none) :
    framePhotosGET hash sign now db none co
        = ⟨.error 401 "Device token required", db⟩ ∧
    syncPOST hash now db none body
        = ⟨.error 401 "API key required", db, false⟩ ∧
    legacyPhotosGET hash sign now db none (some sid) co
        = ⟨.error 401 "API key required", db⟩ ∧
    framePhotosGET hash sign now db (some tok) co
        = ⟨.error 401 "Invalid device token", db⟩ ∧
    syncPOST hash now db (some key) body
        = ⟨.error 401 "Invalid API key", db, false⟩ ∧
    legacyPhotosGET hash sign now db (some key) (some sid) co
        = ⟨.error 401 "Invalid API key", db⟩ ∧
    legacyPhotosGET hash sign now db (some key) none co
        = ⟨.error 400 "Stream ID required", db⟩ := by
  refine ⟨rfl, rfl, rfl, ?_, ?_, ?_, rfl⟩
  · simp only [framePhotosGET, hTok]
  · simp only [syncPOST, hSync]
  · simp only [legacyPhotosGET, hLegacy]

/-- Concrete run of `auth_failure_rejected_without_effect` against `dbA`
with an unknown token and an unknown key. -/
theorem auth_failure_rejected_without_effect_witness :
    singleRow (dbA.frames.filter
        (fun f => f.device_token_hash == (fun s : String => s) "bad-tok")) = none ∧
    singleRow (dbA.api_keys.filter
        (syncKeyMatch ((fun s : String => s) "bogus") (some "stream-1"))) = none ∧
    singleRow (dbA.api_keys.filter
        (legacyKeyMatch ((fun s : String => s) "bogus") "stream-1" 7)) = none ∧
    (framePhotosGET (fun s => s) (fun _ _ => none) 7 dbA none false
        = ⟨.error 401 "Device token required", dbA⟩ ∧
      syncPOST (fun s => s) 7 dbA none ⟨some "stream-1", some 1, some 2, some 3⟩
        = ⟨.error 401 "API key required", dbA, false⟩ ∧
      legacyPhotosGET (fun s => s) (fun _ _ => none) 7 dbA none (some "stream-1") false
        = ⟨.error 401 "API key required", dbA⟩ ∧
      framePhotosGET (fun s => s) (fun _ _ => none) 7 dbA (some "bad-tok") false
        = ⟨.error 401 "Invalid device token", dbA⟩ ∧
      syncPOST (fun s => s) 7 dbA (some "bogus") ⟨some "stream-1", some 1, some 2, some 3⟩
        = ⟨.error 401 "Invalid API key", dbA, false⟩ ∧
      legacyPhotosGET (fun s => s) (fun _ _ => none) 7 dbA (some "bogus") (some "stream-1") false
        = ⟨.error 401 "Invalid API key", dbA⟩ ∧
      legacyPhotosGET (fun s => s) (fun _ _ => none) 7 dbA (some "bogus") none false
        = ⟨.error 400 "Stream ID required", dbA⟩) :=
  ⟨by decide, by decide, by decide,
    auth_failure_rejected_without_effect (fun s => s) (fun _ _ => none) 7 dbA
      "bad-tok" "bogus" "stream-1" false ⟨some "stream-1", some 1, some 2, some 3⟩
      (by decide) (by decide) (by decide)⟩

/-! ## C4 — sync-report acceptance -/

/-- Claim C4 counterexample: a sync report carrying a valid credential (its
hash matches the stored key `keyA`, first conjunct) and a JSON body with
exactly `synced_count`, `total_count` and `cache_size_mb` is rejected with
401: the handler also needs `stream_id` in the body to locate the key. -/
theorem sync_body_without_stream_id_rejected :
    dbA.api_keys.any (fun k => k.key_hash == (fun s : String => s) "key-1") = true ∧
    syncPOST (fun s => s) 7 dbA (some "key-1") ⟨none, some 5, some 10, some 42⟩
      = ⟨.error 401 "Invalid API key", dbA, false⟩ := by
  constructor <;> decide

/-- Claim C4 (amended): a sync report carrying a valid credential is accepted
with `{ success: true }` — a response carrying no data — whenever the body's
`stream_id` matches the key's stream; the `synced_count`, `total_count` and
`cache_size_mb` fields are sufficient in the sense that they are never
validated (the body is otherwise arbitrary), and the only database effect
is stamping the key's `last_used_at`. -/
theorem sync_report_accepted (hash : String → String) (now : Nat) (db : DB)
    (key : String) (body : SyncBody) (k : ApiKeyRow)
    (hk : singleRow (db.api_keys.filter
        (syncKeyMatch (hash key) body.stream_id)) = some k) :
    syncPOST hash now db (some key) body
      = ⟨.success, { db with api_keys := markKeyUsed db.api_keys k.id now }, true⟩ := by
  simp only [syncPOST, hk]

/-- Concrete run of `sync_report_accepted`: `keyA` plus a body whose
`stream_id` matches. -/
theorem sync_report_accepted_witness :
    singleRow (dbA.api_keys.filter
        (syncKeyMatch ((fun s : String => s) "key-1") (some "stream-1"))) = some keyA ∧
    syncPOST (fun s => s) 7 dbA (some "key-1") ⟨some "stream-1", some 5, some 10, some 42⟩
      = ⟨.success, { dbA with api_keys := markKeyUsed dbA.api_keys keyA.id 7 }, true⟩ :=
  ⟨by decide,
    sync_report_accepted (fun s => s) 7 dbA "key-1"
      ⟨some "stream-1", some 5, some 10, some 42⟩ keyA (by decide)⟩

/-! ## C7 — signed download URLs -/

/-- Claim C7: every element of a photo-list response carries a `download_url`
obtained by signing that photo's storage path during the request — with a
600-second lifetime on the frame-token endpoint and 3600 seconds on the
legacy endpoint — and the empty string when signing fails (`sign` returns
`none`). -/
theorem download_url_signed (hash : String → String)
    (sign : String → Nat → Option String) (now : Nat) (db : DB)
    (deviceToken apiKey streamId : Option String) (co co' : Bool) :
    (∀ ps c fr,
      (framePhotosGET hash sign now db deviceToken co).response = .photoList ps c fr →
      ∀ p ∈ ps, p.download_url = (sign p.storage_path 600).getD "") ∧
    (∀ ps c fr,
      (legacyPhotosGET hash sign now db apiKey streamId co').response = .photoList ps c fr →
      ∀ p ∈ ps, p.download_url = (sign p.storage_path 3600).getD "") := by
  constructor
  · simp only [framePhotosGET]
    repeat' split
    all_goals intro ps c fr heq p hp
    all_goals first
      | (simp only [DeviceResponse.photoList.injEq] at heq
         obtain ⟨h1, h2, h3⟩ := heq
         subst h1
         first
           | (obtain ⟨q, hq, rfl⟩ := List.mem_map.mp hp; rfl)
           | simp at hp)
      | exact absurd heq (by simp)
  · simp only [legacyPhotosGET]
    repeat' split
    all_goals intro ps c fr heq p hp
    all_goals first
      | (simp only [DeviceResponse.photoList.injEq] at heq
         obtain ⟨h1, h2, h3⟩ := heq
         subst h1
         obtain ⟨q, hq, rfl⟩ := List.mem_map.mp hp
         rfl)
      | exact absurd heq (by simp)

/-- Signing stub distinguishing the two TTLs. -/
def signA : String → Nat → Option String :=
  fun path ttl => some (path ++ (if ttl == 600 then "-a" else "-b"))

/-- The element the frame-token endpoint serialises for `photoA` under
`signA`. -/
def photoOutFrame : PhotoOut :=
  { id := "photo-1", storage_path := "u1/p1.jpg", filename := "p1.jpg",
    download_url := "u1/p1.jpg-a", mood := none, mood_confidence := none,
    ai_status := none, tags := [], weight := some 100 }

/-- The element the legacy endpoint serialises for `photoA` under `signA`. -/
def photoOutLegacy : PhotoOut :=
  { id := "photo-1", storage_path := "u1/p1.jpg", filename := "p1.jpg",
    download_url := "u1/p1.jpg-b", mood := none, mood_confidence := none,
    ai_status := none, tags := [], weight := none }

/-- Concrete run of `download_url_signed` on `dbA` under `signA`: the frame
endpoint returns the 600-second URL, the legacy endpoint the 3600-second
one. -/
theorem download_url_signed_witness :
    ((framePhotosGET (fun s => s) signA 7 dbA (some "tok-1") false).response
        = .photoList [photoOutFrame] 1 (some ⟨"frame-1", false⟩) ∧
      photoOutFrame ∈ [photoOutFrame] ∧
      photoOutFrame.download_url = (signA photoOutFrame.storage_path 600).getD "") ∧
    ((legacyPhotosGET (fun s => s) signA 7 dbA (some "key-1") (some "stream-1")
          false).response = .photoList [photoOutLegacy] 1 none ∧
      photoOutLegacy ∈ [photoOutLegacy] ∧
      photoOutLegacy.download_url = (signA photoOutLegacy.storage_path 3600).getD "") :=
  ⟨⟨by decide, by decide,
      (download_url_signed (fun s => s) signA 7 dbA (some "tok-1") (some "key-1")
          (some "stream-1") false false).1
        [photoOutFrame] 1 (some ⟨"frame-1", false⟩) (by decide)
        photoOutFrame (by decide)⟩,
    ⟨by decide, by decide,
      (download_url_signed (fun s => s) signA 7 dbA (some "tok-1") (some "key-1")
          (some "stream-1") false false).2
        [photoOutLegacy] 1 none (by decide)
        photoOutLegacy (by decide)⟩⟩

/-! ## C8 — expiry asymmetry between the sync and legacy endpoints -/

/-- Claim C8: the sync-report endpoint validates an API key only by hash and
`stream_id`, never consulting `expires_at`: a stored key whose `expires_at`
lies in the past (`t ≤ now`) is still accepted there, while the legacy
photo-list endpoint rejects the same key with 401 because its lookup also
requires `expires_at` null or strictly future. -/
theorem sync_accepts_expired_key_legacy_rejects (hash : String → String)
    (sign : String → Nat → Option String) (now t : Nat) (key : String)
    (k : ApiKeyRow) (db : DB) (co : Bool)
    (hdb : db.api_keys = [k])
    (hk : k.key_hash = hash key)
    (he : k.expires_at = some t) (hpast : t ≤ now) :
    (syncPOST hash now db (some key)
        ⟨some k.stream_id, none, none, none⟩).response = .success ∧
    (legacyPhotosGET hash sign now db (some key) (some k.stream_id) co).response
      = .error 401 "Invalid API key" := by
  have hlt : ¬ (now < t) := by omega
  constructor
  · simp [syncPOST, hdb, syncKeyMatch, hk, singleRow]
  · simp [legacyPhotosGET, hdb, legacyKeyMatch, hk, he, hlt, singleRow]

/-- An API key for `stream-2` that expired at time 5. -/
def keyExpired : ApiKeyRow :=
  { id := "ak-2", key_hash := "key-2", stream_id := "stream-2",
    expires_at := some 5, last_used_at := none }

/-- A database holding only the expired key. -/
def dbB : DB :=
  { frames := [], frame_sources := [], frame_display_rules := [],
    photos := [], photo_tags := [], api_keys := [keyExpired],
    frame_playlists := [] }

/-- Concrete run of `sync_accepts_expired_key_legacy_rejects` at time 10
against the key that expired at time 5. -/
theorem sync_accepts_expired_key_witness :
    dbB.api_keys = [keyExpired] ∧
    keyExpired.key_hash = (fun s : String => s) "key-2" ∧
    keyExpired.expires_at = some 5 ∧
    5 ≤ 10 ∧
    ((syncPOST (fun s => s) 10 dbB (some "key-2")
        ⟨some keyExpired.stream_id, none, none, none⟩).response = .success ∧
      (legacyPhotosGET (fun s => s) (fun _ _ => none) 10 dbB (some "key-2")
          (some keyExpired.stream_id) false).response = .error 401 "Invalid API key") :=
  ⟨rfl, rfl, rfl, by decide,
    sync_accepts_expired_key_legacy_rejects (fun s => s) (fun _ _ => none) 10 5
      "key-2" keyExpired dbB false rfl rfl rfl (by decide)⟩

/-! ## C9 — orientation filtering never empties the list -/

/-- Claim C9: in the frame photo-list endpoint's orientation step
(`applyOrientationFilter`, applied by `framePhotosGET`): a non-empty photo
set never comes out empty; photos lacking a width or height are kept by the
filter; and when `prefer_matching_orientation` is set, the orientation is
not `'auto'`, and the filter leaves something, the result is exactly the
photos passing the orientation predicate (mismatching photos removed) — the
full unfiltered list being returned instead whenever the filter would leave
zero photos. -/
theorem orientation_filter_never_empties (rules : RulesRow) (o : String)
    (photos : List PhotoRow) (hne : photos ≠ []) :
    applyOrientationFilter rules o photos ≠ [] ∧
    (∀ p ∈ photos, (p.width = none ∨ p.height = none) →
      p ∈ applyOrientationFilter rules o photos) ∧
    (rules.prefer_matching_orientation = true → o ≠ "auto" →
      photos.filter (keepByOrientation (o == "landscape")) ≠ [] →
      applyOrientationFilter rules o photos
        = photos.filter (keepByOrientation (o == "landscape"))) := by
  refine ⟨?_, ?_, ?_⟩
  · unfold applyOrientationFilter
    split
    · dsimp only
      split
      · exact hne
      · rename_i hfil
        simpa [List.isEmpty_iff] using hfil
    · exact hne
  · intro p hp hwh
    unfold applyOrientationFilter
    split
    · dsimp only
      split
      · exact hp
      · refine List.mem_filter.mpr ⟨hp, ?_⟩
        unfold keepByOrientation
        rcases hwh with h | h
        · rw [h]
        · rw [h]
          cases p.width <;> rfl
    · exact hp
  · intro hpref hauto hfil
    unfold applyOrientationFilter
    rw [if_pos, if_neg]
    · simpa [List.isEmpty_iff] using hfil
    · simp [hpref, hauto]

/-- Concrete run of `orientation_filter_never_empties` on the landscape
photo `photoA`. -/
theorem orientation_filter_never_empties_witness :
    ([photoA] : List PhotoRow) ≠ [] ∧
    (applyOrientationFilter (defaultRules "frame-1") "landscape" [photoA] ≠ [] ∧
      (∀ p ∈ [photoA], (p.width = none ∨ p.height = none) →
        p ∈ applyOrientationFilter (defaultRules "frame-1") "landscape" [photoA]) ∧
      ((defaultRules "frame-1").prefer_matching_orientation = true →
        ("landscape" : String) ≠ "auto" →
        [photoA].filter (keepByOrientation (("landscape" : String) == "landscape")) ≠ [] →
        applyOrientationFilter (defaultRules "frame-1") "landscape" [photoA]
          = [photoA].filter (keepByOrientation (("landscape" : String) == "landscape")))) :=
  ⟨by decide,
    orientation_filter_never_empties (defaultRules "frame-1") "landscape" [photoA]
      (by decide)⟩

/-! ## C10 — presence stamping on authenticated device requests -/

/-- Claim C10: every successfully authenticated request to the frame
photo-list or frame-config endpoint leaves the database equal to the input
database with only the `frames` table rewritten by `markFrameSeen` — in
every branch, including `count_only`, before any photo or config data
shapes the outcome — and `markFrameSeen` keeps every other frame's row
unchanged while the matching row reappears with `is_online := true` and
`last_seen_at := now` and every other field as it was (the record update
touches only those two fields). -/
theorem device_request_updates_presence (hash : String → String)
    (sign : String → Nat → Option String) (now : Nat) (db : DB)
    (tok : String) (co : Bool) (fr : FrameRow)
    (hauth : singleRow (db.frames.filter
        (fun f => f.device_token_hash == hash tok)) = some fr) :
    (framePhotosGET hash sign now db (some tok) co).db
        = { db with frames := markFrameSeen db.frames fr.id now } ∧
    (frameConfigGET hash now db (some tok)).db
        = { db with frames := markFrameSeen db.frames fr.id now } ∧
    (∀ r ∈ db.frames, r.id ≠ fr.id → r ∈ markFrameSeen db.frames fr.id now) ∧
    (∀ r ∈ db.frames, r.id = fr.id →
      { r with is_online := true, last_seen_at := some now }
        ∈ markFrameSeen db.frames fr.id now) := by
  refine ⟨?_, ?_, ?_, ?_⟩
  · simp only [framePhotosGET, hauth]
    repeat' split
    all_goals rfl
  · simp only [frameConfigGET, hauth]
  · intro r hr hne
    have h : ¬ (r.id == fr.id) = true := by simpa using hne
    unfold markFrameSeen
    exact List.mem_map.mpr ⟨r, hr, by rw [if_neg h]⟩
  · intro r hr hid
    have h : (r.id == fr.id) = true := by simpa using hid
    unfold markFrameSeen
    exact List.mem_map.mpr ⟨r, hr, by rw [if_pos h]⟩

/-- Concrete run of `device_request_updates_presence`: `frameA` answers
with token `tok-1` at time 9. -/
theorem device_request_updates_presence_witness :
    singleRow (dbA.frames.filter
        (fun f => f.device_token_hash == (fun s : String => s) "tok-1")) = some frameA ∧
    ((framePhotosGET (fun s => s) (fun _ _ => none) 9 dbA (some "tok-1") true).db
        = { dbA with frames := markFrameSeen dbA.frames frameA.id 9 } ∧
      (frameConfigGET (fun s => s) 9 dbA (some "tok-1")).db
        = { dbA with frames := markFrameSeen dbA.frames frameA.id 9 } ∧
      (∀ r ∈ dbA.frames, r.id ≠ frameA.id → r ∈ markFrameSeen dbA.frames frameA.id 9) ∧
      (∀ r ∈ dbA.frames, r.id = frameA.id →
        { r with is_online := true, last_seen_at := some 9 }
          ∈ markFrameSeen dbA.frames frameA.id 9)) :=
  ⟨by decide,
    device_request_updates_presence (fun s => s) (fun _ _ => none) 9 dbA "tok-1"
      true frameA (by decide)⟩

end Froggie
